import Mathlib

/-!
Shallow embedding of the two subsystems of the datalinker service that the
specification covers: the DataLink identifier-resolution / link-assembly path
(`services/links.py`, `handlers/external.py`) and the HiPS federated list
cache and aggregator (`dependencies/hips.py`, `config.py`).  Strings are
modelled as Lean `String`; the handful of Python string operations the code
uses (`str.rstrip`, `re.sub` with a line-anchored pattern, `"\n".join`,
`str.format` padding, `urlparse` field access) are given explicit executable
definitions over character lists.  HTTP clients and the discovery client are
modelled as oracles (`String → Option String`, label → result), and each
cache operation additionally reports the list of request URLs it issued so
that fetch counts are observable.
-/

namespace Datalinker

/-- Split a character list on a separator character; mirrors Python
`str.split(c)` semantics (always at least one piece). -/
def splitOnChar (c : Char) : List Char → List (List Char)
  | [] => [[]]
  | x :: xs =>
    let r := splitOnChar c xs
    if x = c then [] :: r
    else
      match r with
      | [] => [[x]]
      | y :: ys => (x :: y) :: ys

/-- The lines of a string, splitting on newline, as Python `re.MULTILINE`
anchoring and `"\n"`-joining see them. -/
def split_lines (s : String) : List String :=
  (splitOnChar (Char.ofNat 10) s.toList).map String.mk

/-- Join a list of strings with a separator; mirrors Python `sep.join`. -/
def join_with (sep : String) : List String → String
  | [] => ""
  | [x] => x
  | x :: y :: xs => x ++ sep ++ join_with sep (y :: xs)

/-- Python `str.rstrip("/")`: drop trailing slash characters. -/
def rstrip_slash (s : String) : String :=
  String.mk ((s.toList.reverse.dropWhile (fun c => c = '/')).reverse)

/-- Whether `p` begins the string `s` (used for the line-anchored
`^hips_status` regular-expression match). -/
def starts_with (p s : String) : Bool :=
  List.isPrefixOf p.toList s.toList

/-- Python `"{:25}".format(s)`: left-justify `s` in a field of width 25. -/
def pad_right (s : String) (n : Nat) : String :=
  s ++ String.mk (List.replicate (n - s.toList.length) ' ')

/-- The `hips_service_url` line inserted into a properties document:
`"{:25}= {}".format("hips_service_url", url)` from
`BaseHiPSListDependency._fetch_and_process_properties`. -/
def hips_service_url_line (url : String) : String :=
  pad_right "hips_service_url" 25 ++ "= " ++ url

/-- Line-level model of
`re.sub("^hips_status", service_url + "\nhips_status", text, flags=re.MULTILINE)`:
the pattern matches at the start of every line, so the replacement prepends
the service-URL line before each line beginning with `hips_status`. -/
def patch_lines (url : String) : List String → List String
  | [] => []
  | l :: rest =>
    if starts_with "hips_status" l then
      hips_service_url_line url :: l :: patch_lines url rest
    else
      l :: patch_lines url rest

/-- The patched properties document produced on a successful fetch in
`BaseHiPSListDependency._fetch_and_process_properties`. -/
def patch_properties (url : String) (text : String) : String :=
  join_with "\n" (patch_lines url (split_lines text))

/-- `url = str(base_url).rstrip("/") + f"/{hips_path}"` from
`_fetch_and_process_properties`. -/
def request_url (base_url hips_path : String) : String :=
  rstrip_slash base_url ++ "/" ++ hips_path

/-- `BaseHiPSListDependency._fetch_and_process_properties`: issue one GET for
`url + "/properties"`; a non-200 response (client oracle `none`) yields
`None`, a 200 response yields the patched document. -/
def fetch_and_process_properties (client : String → Option String)
    (base_url hips_path : String) : Option String :=
  match client (request_url base_url hips_path ++ "/properties") with
  | none => none
  | some body => some (patch_properties (request_url base_url hips_path) body)

/-- The `lists` accumulator of `build_hips_list_from_paths`: each path is
probed in order and its document appended when the Python truthiness test
`if data:` passes (fetched and non-empty). -/
def build_hips_lists (client : String → Option String) (base_url : String) :
    List String → List String
  | [] => []
  | p :: rest =>
    match fetch_and_process_properties client base_url p with
    | some d =>
      if d = "" then build_hips_lists client base_url rest
      else d :: build_hips_lists client base_url rest
    | none => build_hips_lists client base_url rest

/-- `BaseHiPSListDependency.build_hips_list_from_paths`: the collected
documents joined by `"\n".join(lists)`. -/
def build_hips_list_from_paths (client : String → Option String)
    (base_url : String) (paths : List String) : String :=
  join_with "\n" (build_hips_lists client base_url paths)

/-- The request URLs issued by one run of `build_hips_list_from_paths`: the
loop performs exactly one GET per configured path, in order. -/
def build_requests (base_url : String) (paths : List String) : List String :=
  paths.map (fun p => request_url base_url p ++ "/properties")

/-- `HiPSDatasetConfig` from `config.py`: base URL and ordered path list of
one dataset family. -/
structure HiPSDatasetConfig where
  url : String
  paths : List String
deriving DecidableEq

/-- The HiPS-relevant part of `Config`: `hips_datasets` (an insertion-ordered
mapping, modelled as an association list) and `hips_default_dataset`. -/
structure HiPSConfig where
  hips_datasets : List (String × HiPSDatasetConfig)
  hips_default_dataset : String
deriving DecidableEq

/-- Membership lookup in the `hips_datasets` mapping. -/
def hips_datasets_lookup (cfg : HiPSConfig) (name : String) :
    Option HiPSDatasetConfig :=
  (cfg.hips_datasets.find? (fun kv => kv.1 = name)).map (fun kv => kv.2)

/-- `list(config.hips_datasets.keys())`, in insertion order. -/
def hips_datasets_keys (cfg : HiPSConfig) : List String :=
  cfg.hips_datasets.map (fun kv => kv.1)

/-- `HiPSListDependency._build_hips_list`: empty result when no datasets are
configured, no default dataset is set, or the default is not among the
configured datasets; otherwise build from the default dataset's paths.
Returns the text together with the request URLs issued. -/
def build_default_hips_list (cfg : HiPSConfig)
    (client : String → Option String) : String × List String :=
  if cfg.hips_datasets = [] ∨ cfg.hips_default_dataset = "" then ("", [])
  else
    match hips_datasets_lookup cfg cfg.hips_default_dataset with
    | none => ("", [])
    | some dc =>
      (build_hips_list_from_paths client dc.url dc.paths,
       build_requests dc.url dc.paths)

/-- `HiPSListDependency.__call__` acting on the `_hips_list` cache state
(`str | None`).  The guard is the Python truthiness test
`if not self._hips_list:`, so both `None` and the empty string trigger a
rebuild.  Returns (returned text, new state, request URLs issued). -/
def hips_list_call (cfg : HiPSConfig) (client : String → Option String)
    (st : Option String) : String × Option String × List String :=
  match st with
  | none =>
    let r := build_default_hips_list cfg client
    (r.1, some r.1, r.2)
  | some s =>
    if s = "" then
      let r := build_default_hips_list cfg client
      (r.1, some r.1, r.2)
    else (s, some s, [])

/-- The two 404 outcomes raised by `DatasetHiPSListDependency.__call__`. -/
inductive HipsListLookupError where
  | no_datasets_configured : HipsListLookupError
  | dataset_not_configured (dataset : String) (available : List String) :
      HipsListLookupError
deriving DecidableEq

/-- A single-quote character as a string (for rendering Python reprs). -/
def single_quote : String := String.mk [Char.ofNat 39]

/-- Python `repr` of a list of plain strings, as interpolated into the 404
detail message. -/
def py_list_repr (xs : List String) : String :=
  "[" ++ join_with ", " (xs.map (fun s => single_quote ++ s ++ single_quote))
    ++ "]"

/-- The `detail` strings of the two 404 responses in
`DatasetHiPSListDependency.__call__`. -/
def hips_error_detail : HipsListLookupError → String
  | .no_datasets_configured => "No HiPS datasets are configured"
  | .dataset_not_configured dataset available =>
    "Dataset " ++ single_quote ++ dataset ++ single_quote
      ++ " not configured. Available datasets: " ++ py_list_repr available

/-- Python dict assignment `d[k] = v` on an association list: replace in
place when the key is present, append otherwise. -/
def dict_insert (st : List (String × String)) (k v : String) :
    List (String × String) :=
  if st.any (fun kv => kv.1 = k) then
    st.map (fun kv => if kv.1 = k then (k, v) else kv)
  else st ++ [(k, v)]

/-- `DatasetHiPSListDependency.__call__` acting on the `_hips_lists` dict
state: 404 when no datasets are configured; 404 enumerating the configured
names when the requested dataset is not among them; otherwise serve from the
cache, building and storing (even an empty result) on a miss.  The ok value
is (returned text, new state, request URLs issued). -/
def dataset_hips_list_call (cfg : HiPSConfig) (client : String → Option String)
    (dataset : String) (st : List (String × String)) :
    Except HipsListLookupError
      (String × List (String × String) × List String) :=
  if cfg.hips_datasets = [] then .error .no_datasets_configured
  else
    match hips_datasets_lookup cfg dataset with
    | none => .error (.dataset_not_configured dataset (hips_datasets_keys cfg))
    | some dc =>
      match st.find? (fun kv => kv.1 = dataset) with
      | some kv => .ok (kv.2, st, [])
      | none =>
        let text := build_hips_list_from_paths client dc.url dc.paths
        .ok (text, dict_insert st dataset text, build_requests dc.url dc.paths)

/-- The keys currently present in the per-dataset cache. -/
def cache_keys (st : List (String × String)) : List String :=
  st.map (fun kv => kv.1)

/-- The operations on the per-dataset cache: `__call__`,
`clear_dataset_cache` and `clear_cache`. -/
inductive CacheOp where
  | get_dataset (dataset : String) : CacheOp
  | clear_dataset_cache (dataset : String) : CacheOp
  | clear_cache : CacheOp

/-- State transition of one cache operation (a raising `__call__` leaves the
state untouched: both 404s are raised before anything is stored). -/
def cache_apply (cfg : HiPSConfig) (client : String → Option String)
    (st : List (String × String)) : CacheOp → List (String × String)
  | .get_dataset d =>
    match dataset_hips_list_call cfg client d st with
    | .ok r => r.2.1
    | .error _ => st
  | .clear_dataset_cache d => st.filter (fun kv => kv.1 ≠ d)
  | .clear_cache => []

/-- Run a sequence of cache operations from the initial empty cache. -/
def cache_apply_ops (cfg : HiPSConfig) (client : String → Option String)
    (ops : List CacheOp) : List (String × String) :=
  ops.foldl (cache_apply cfg client) []

/-- `urlparse(uri).scheme`: the text before the first colon. -/
def uri_scheme (uri : String) : String :=
  String.mk ((splitOnChar ':' uri.toList).headD [])

/-- The dataset reference information `build_datalink` consults:
`ref.datasetType.name`. -/
structure DatasetRefInfo where
  dataset_type_name : String
deriving DecidableEq

/-- The `DataLink` dataclass from `models.py`. -/
structure DataLink where
  id : String
  image_url : String
  image_size : Nat
  cutout_sync_url : Option String
deriving DecidableEq

/-- The exceptions `LinksService.build_datalink` can raise. -/
inductive LinksServiceError where
  | identifier_not_found (msg : String) : LinksServiceError
  | identifier_malformed (msg : String) : LinksServiceError
  | butler_uri_not_signed (url : String) : LinksServiceError
deriving DecidableEq

/-- Outcome of the Butler lookups performed at the start of
`build_datalink` (`get_dataset_from_uri`, the `ref` check, `getURI`),
modelled as an oracle since the Butler is an external collaborator. -/
inductive ButlerLookup where
  | repo_not_found : ButlerLookup
  | invalid_uuid : ButlerLookup
  | found (ref : Option DatasetRefInfo) (uri : String) (size : Nat) :
      ButlerLookup

/-- `LinksService.build_datalink`: translate lookup failures, require an
`http`/`https` storage location, and assemble the `DataLink`, suppressing the
cutout sync URL when the dataset type is `raw`. -/
def build_datalink (id : String) (lookup : ButlerLookup)
    (cutout_sync_url : Option String) : Except LinksServiceError DataLink :=
  match lookup with
  | .repo_not_found =>
    .error (.identifier_not_found ("Repository for " ++ id ++ " does not exist"))
  | .invalid_uuid =>
    .error (.identifier_malformed "Unable to extract valid dataset ID from {id}")
  | .found none _ _ =>
    .error (.identifier_not_found ("Dataset " ++ id ++ " does not exist"))
  | .found (some ref) uri size =>
    if uri_scheme uri ≠ "https" ∧ uri_scheme uri ≠ "http" then
      .error (.butler_uri_not_signed uri)
    else
      .ok { id := id, image_url := uri, image_size := size,
            cutout_sync_url :=
              if ref.dataset_type_name = "raw" then none else cutout_sync_url }

/-- Failures the external discovery client could raise (network error and
the like); the discovery client is an external collaborator, so it is
modelled as an oracle that may fail. -/
inductive DiscoveryFailure where
  | network_error : DiscoveryFailure
deriving DecidableEq

/-- `LinksService.get_cutout_sync_url`: the `try`/`except` wraps only
`Butler.parse_dataset_uri`; the subsequent `url_for_data` call on the
discovery client is outside it, so its failures propagate. -/
def get_cutout_sync_url (parse_dataset_uri : String → Option String)
    (url_for_data : String → Except DiscoveryFailure (Option String))
    (id : String) : Except DiscoveryFailure (Option String) :=
  match parse_dataset_uri id with
  | none => .ok none
  | some label => url_for_data label

/-- Modelled from the spec: the handler module imports `StorageBackend` from
the configuration module, but that definition is not present in the source
tree; the spec describes the configuration surface as a "storage backend
selector (one of two values)" choosing between a Google-Cloud-style signer
and an S3-compatible signer. -/
inductive StorageBackend where
  | gcs : StorageBackend
  | s3 : StorageBackend
deriving DecidableEq

/-- The observable parameters handed to the backend signing API by
`_upload_to_gcs` / `_upload_to_s3` (the signing itself is performed by the
external cloud client library). -/
structure SignedUrl where
  backend : StorageBackend
  bucket : String
  object_key : String
  expiry_seconds : Nat
  method_get : Bool
deriving DecidableEq

/-- `urlparse(uri).netloc`: the text between `://` and the next slash. -/
def uri_netloc (uri : String) : String :=
  let rest := uri.toList.drop ((uri_scheme uri).toList.length + 3)
  String.mk (rest.takeWhile (fun c => c ≠ '/'))

/-- `urlparse(uri).path[1:]`: the path after the netloc without its leading
slash. -/
def uri_object_key (uri : String) : String :=
  let rest := uri.toList.drop ((uri_scheme uri).toList.length + 3)
  String.mk ((rest.dropWhile (fun c => c ≠ '/')).drop 1)

/-- `_upload_to_gcs`: sign `image_uri` for GET with the given expiry. -/
def upload_to_gcs (image_uri : String) (expiry : Nat) : SignedUrl :=
  { backend := .gcs, bucket := uri_netloc image_uri,
    object_key := uri_object_key image_uri, expiry_seconds := expiry,
    method_get := true }

/-- `_upload_to_s3`: presign a `get_object` request for `image_uri`
expiring after `expiry.total_seconds()`. -/
def upload_to_s3 (image_uri : String) (expiry : Nat) : SignedUrl :=
  { backend := .s3, bucket := uri_netloc image_uri,
    object_key := uri_object_key image_uri, expiry_seconds := expiry,
    method_get := true }

/-- The default of `Config.links_lifetime` (`timedelta(hours=1)`), in
seconds. -/
def links_lifetime_default : Nat := 3600

/-- The configuration the `links` handler reads: the storage backend
selector and the `links_lifetime` setting (seconds). -/
structure LinksHandlerConfig where
  storage_backend : StorageBackend
  links_lifetime : Nat
deriving DecidableEq

/-- `expires_in = timedelta(hours=1)` from the `links` handler, in seconds:
a fixed constant, not read from the configuration. -/
def links_expires_in : Nat := 3600

/-- The access URL computed by the `links` handler: either the Butler URI
passed through unchanged or a freshly signed URL. -/
inductive ImageUrlResult where
  | passthrough (url : String) : ImageUrlResult
  | signed (s : SignedUrl) : ImageUrlResult
deriving DecidableEq

/-- The URL-resolution branch of the `links` handler in
`handlers/external.py`: pre-signed `http`/`https` URIs pass through; raw
object-store URIs are signed by the backend selected in the configuration,
with expiry `links_expires_in`. -/
def resolve_image_url (cfg : LinksHandlerConfig) (image_uri : String) :
    ImageUrlResult :=
  if uri_scheme image_uri = "https" ∨ uri_scheme image_uri = "http" then
    .passthrough image_uri
  else
    match cfg.storage_backend with
    | .gcs => .signed (upload_to_gcs image_uri links_expires_in)
    | .s3 => .signed (upload_to_s3 image_uri links_expires_in)

/-- Example client oracle: path `p1` fetches body `A`, path `p3` fetches
body `C`, every other request fails. -/
def ex_client_ac : String → Option String := fun u =>
  if u = "http://e/p1/properties" then some "A"
  else if u = "http://e/p3/properties" then some "C"
  else none

/-- Example client oracle: path `p` fetches an empty body (HTTP 200 with
empty text), every other request fails. -/
def ex_client_empty : String → Option String := fun u =>
  if u = "http://e/p/properties" then some "" else none

/-- Example client oracle on which every request fails. -/
def ex_client_fail : String → Option String := fun _ => none

/-- Example configuration with one dataset family `d` (one path `p`), which
is also the default family. -/
def ex_cfg_one : HiPSConfig :=
  { hips_datasets := [("d", { url := "http://e", paths := ["p"] })],
    hips_default_dataset := "d" }

/-- Example configuration with two dataset families `dp02` and `dp1`. -/
def ex_cfg_two : HiPSConfig :=
  { hips_datasets :=
      [("dp02", { url := "http://e", paths := ["p1"] }),
       ("dp1", { url := "http://e", paths := ["p2"] })],
    hips_default_dataset := "dp02" }

/-- A successful lookup in the datasets mapping means the mapping is
non-empty. -/
theorem hips_datasets_lookup_ne_nil {cfg : HiPSConfig} {name : String}
    {dc : HiPSDatasetConfig} (h : hips_datasets_lookup cfg name = some dc) :
    cfg.hips_datasets ≠ [] := by
  intro hnil
  unfold hips_datasets_lookup at h
  rw [hnil] at h
  simp at h

/-- C3 counterexample: with an identifier that parses and a discovery client
whose call fails, `get_cutout_sync_url` propagates the failure instead of
collapsing it to absent. -/
theorem c3_counterexample :
    get_cutout_sync_url (fun _ => some "dp02")
        (fun _ => .error .network_error) "butler://dp02/uuid"
      = .error DiscoveryFailure.network_error
    ∧ (Except.error DiscoveryFailure.network_error :
        Except DiscoveryFailure (Option String)) ≠ .ok none :=
  ⟨rfl, fun h => Except.noConfusion h⟩

/-- C3 (amended): the cutout discovery lookup returns absent whenever the
identifier fails to parse, but the result of the external discovery call —
including a failure it raises — is returned as is, so discovery failures
propagate to the caller. -/
theorem c3_parse_failures_only_collapse (parse : String → Option String)
    (disc : String → Except DiscoveryFailure (Option String)) (id : String) :
    (parse id = none → get_cutout_sync_url parse disc id = .ok none)
    ∧ (∀ l, parse id = some l → get_cutout_sync_url parse disc id = disc l) := by
  constructor
  · intro h
    simp [get_cutout_sync_url, h]
  · intro l h
    simp [get_cutout_sync_url, h]

/-- C3 witness: the amended theorem applied at a malformed identifier and at
a parsed identifier whose discovery succeeds. -/
theorem c3_parse_failures_only_collapse_witness :
    get_cutout_sync_url (fun _ => none)
        (fun _ => .ok (some "http://cutout")) "bad" = .ok none
    ∧ get_cutout_sync_url (fun _ => some "dp02")
        (fun _ => .ok (some "http://cutout")) "butler://dp02/u"
      = .ok (some "http://cutout") :=
  ⟨(c3_parse_failures_only_collapse (fun _ => none)
      (fun _ => .ok (some "http://cutout")) "bad").1 rfl,
   (c3_parse_failures_only_collapse (fun _ => some "dp02")
      (fun _ => .ok (some "http://cutout")) "butler://dp02/u").2 "dp02" rfl⟩

/-- C4 counterexample: a document with two lines beginning with
`hips_status` gains the `hips_service_url` line before each of them, not
only before the first. -/
theorem c4_counterexample :
    patch_properties "u"
        "hips_status = public\nhips_order = 9\nhips_status = clone"
      = "hips_service_url         = u\nhips_status = public\nhips_order = 9\nhips_service_url         = u\nhips_status = clone"
    ∧ patch_properties "u"
        "hips_status = public\nhips_order = 9\nhips_status = clone"
      ≠ "hips_service_url         = u\nhips_status = public\nhips_order = 9\nhips_status = clone" := by
  decide

/-- C4 (amended): the fetcher inserts the `hips_service_url` line
immediately before every line of the document that begins with
`hips_status` (case-sensitive, anchored at the start of any line), and
inserts nothing elsewhere; with a single such line this is exactly an
insertion before the first one. -/
theorem c4_insert_before_every_status_line (url : String)
    (pre post : List String) (l : String) :
    ((∀ m ∈ pre, starts_with "hips_status" m = false) →
      starts_with "hips_status" l = true →
      patch_lines url (pre ++ l :: post)
        = pre ++ hips_service_url_line url :: l :: patch_lines url post)
    ∧ ((∀ m ∈ pre, starts_with "hips_status" m = false) →
      patch_lines url pre = pre) := by
  constructor
  · intro hpre hl
    induction pre with
    | nil => simp [patch_lines, hl]
    | cons m rest ih =>
      have hm : starts_with "hips_status" m = false := hpre m (by simp)
      have hrest : ∀ x ∈ rest, starts_with "hips_status" x = false :=
        fun x hx => hpre x (by simp [hx])
      simp [patch_lines, hm, ih hrest]
  · intro hpre
    induction pre with
    | nil => rfl
    | cons m rest ih =>
      have hm : starts_with "hips_status" m = false := hpre m (by simp)
      have hrest : ∀ x ∈ rest, starts_with "hips_status" x = false :=
        fun x hx => hpre x (by simp [hx])
      simp [patch_lines, hm, ih hrest]

/-- C4 witness: the amended theorem applied to a document whose second line
is the only `hips_status` line. -/
theorem c4_insert_before_every_status_line_witness :
    (∀ m ∈ ["hips_order = 9"], starts_with "hips_status" m = false)
    ∧ starts_with "hips_status" "hips_status = public" = true
    ∧ patch_lines "u" (["hips_order = 9"] ++ "hips_status = public" :: [])
        = ["hips_order = 9", hips_service_url_line "u",
           "hips_status = public"] :=
  ⟨by decide, by decide,
   by
    rw [(c4_insert_before_every_status_line "u" ["hips_order = 9"] []
      "hips_status = public").1 (by decide) (by decide)]
    rfl⟩

/-- When no successful fetch yields an empty document, the collected list is
exactly the successful documents in path order. -/
theorem build_hips_lists_eq_filterMap (client : String → Option String)
    (base : String) (paths : List String)
    (h : ∀ p ∈ paths, fetch_and_process_properties client base p ≠ some "") :
    build_hips_lists client base paths
      = paths.filterMap (fetch_and_process_properties client base) := by
  induction paths with
  | nil => rfl
  | cons p rest ih =>
    have hrest : ∀ q ∈ rest,
        fetch_and_process_properties client base q ≠ some "" :=
      fun q hq => h q (by simp [hq])
    cases hp : fetch_and_process_properties client base p with
    | none => simp [build_hips_lists, hp, ih hrest]
    | some d =>
      have hd : d ≠ "" := by
        intro hde
        exact h p (by simp) (by rw [hp, hde])
      simp [build_hips_lists, hp, hd, ih hrest]

/-- When every path either fails or yields an empty document, nothing is
collected. -/
theorem build_hips_lists_all_absent (client : String → Option String)
    (base : String) (paths : List String)
    (h : ∀ p ∈ paths, fetch_and_process_properties client base p = some ""
        ∨ fetch_and_process_properties client base p = none) :
    build_hips_lists client base paths = [] := by
  induction paths with
  | nil => rfl
  | cons p rest ih =>
    have hrest : ∀ q ∈ rest,
        fetch_and_process_properties client base q = some ""
          ∨ fetch_and_process_properties client base q = none :=
      fun q hq => h q (by simp [hq])
    rcases h p (by simp) with hp | hp <;>
      simp [build_hips_lists, hp, ih hrest]

/-- C5: the aggregator probes the configured paths sequentially in order
(one request per path), omits every path whose fetch failed, and joins the
successful documents with a single newline; on the example paths where `p2`
fails and `p1`, `p3` fetch bodies `A` and `C` the aggregate is `A\nC`, and
the aggregate is empty for an empty path list or when every fetch fails. -/
theorem c5_aggregator_join (client : String → Option String) (base : String)
    (paths : List String) :
    ((∀ p ∈ paths, fetch_and_process_properties client base p ≠ some "") →
      build_hips_list_from_paths client base paths
        = join_with "\n"
            (paths.filterMap (fetch_and_process_properties client base)))
    ∧ build_hips_list_from_paths client base [] = ""
    ∧ ((∀ p ∈ paths, fetch_and_process_properties client base p = none) →
      build_hips_list_from_paths client base paths = "")
    ∧ build_requests base paths
        = paths.map (fun p => request_url base p ++ "/properties")
    ∧ build_hips_list_from_paths ex_client_ac "http://e" ["p1", "p2", "p3"]
        = "A\nC" := by
  refine ⟨fun h => ?_, rfl, fun h => ?_, rfl, by decide⟩
  · unfold build_hips_list_from_paths
    rw [build_hips_lists_eq_filterMap client base paths h]
  · unfold build_hips_list_from_paths
    rw [build_hips_lists_all_absent client base paths
      (fun p hp => Or.inr (h p hp))]
    rfl

/-- C5 witness: the aggregator theorem applied to the example client (with
its path-order and join conclusions evaluated) and to an all-failing
client. -/
theorem c5_aggregator_join_witness :
    (∀ p ∈ ["p1", "p2", "p3"],
      fetch_and_process_properties ex_client_ac "http://e" p ≠ some "")
    ∧ build_hips_list_from_paths ex_client_ac "http://e" ["p1", "p2", "p3"]
        = join_with "\n"
            (["p1", "p2", "p3"].filterMap
              (fetch_and_process_properties ex_client_ac "http://e"))
    ∧ (∀ p ∈ ["p1", "p2"],
      fetch_and_process_properties ex_client_fail "http://e" p = none)
    ∧ build_hips_list_from_paths ex_client_fail "http://e" ["p1", "p2"] = "" :=
  ⟨by decide,
   (c5_aggregator_join ex_client_ac "http://e" ["p1", "p2", "p3"]).1
     (by decide),
   by decide,
   (c5_aggregator_join ex_client_fail "http://e" ["p1", "p2"]).2.2.1
     (by decide)⟩

/-- C9: a properties document fetched successfully but empty after patching
is treated exactly like an absent one — it is omitted from the aggregate —
and a family all of whose properties files are empty or absent aggregates to
the empty string rather than a run of newline separators. -/
theorem c9_empty_document_omitted (client : String → Option String)
    (base : String) (p : String) (rest paths : List String) :
    ((fetch_and_process_properties client base p = some ""
        ∨ fetch_and_process_properties client base p = none) →
      build_hips_list_from_paths client base (p :: rest)
        = build_hips_list_from_paths client base rest)
    ∧ ((∀ q ∈ paths,
        fetch_and_process_properties client base q = some ""
          ∨ fetch_and_process_properties client base q = none) →
      build_hips_list_from_paths client base paths = "") := by
  constructor
  · intro h
    rcases h with h | h <;>
      simp [build_hips_list_from_paths, build_hips_lists, h]
  · intro h
    unfold build_hips_list_from_paths
    rw [build_hips_lists_all_absent client base paths h]
    rfl

/-- C9 witness: the theorem applied to a family whose only properties file
is fetched successfully but empty. -/
theorem c9_empty_document_omitted_witness :
    (fetch_and_process_properties ex_client_empty "http://e" "p" = some ""
      ∨ fetch_and_process_properties ex_client_empty "http://e" "p" = none)
    ∧ build_hips_list_from_paths ex_client_empty "http://e" ["p"]
        = build_hips_list_from_paths ex_client_empty "http://e" []
    ∧ build_hips_list_from_paths ex_client_empty "http://e" ["p"] = "" :=
  ⟨by decide,
   (c9_empty_document_omitted ex_client_empty "http://e" "p" [] ["p"]).1
     (by decide),
   (c9_empty_document_omitted ex_client_empty "http://e" "p" [] ["p"]).2
     (by decide)⟩

/-- C1 counterexample: with `links_lifetime` configured to 7200 seconds, a
raw object-store URI is signed with the hard-coded one-hour expiry (3600
seconds), not with the configured lifetime, under both backends. -/
theorem c1_counterexample :
    resolve_image_url
        { storage_backend := StorageBackend.gcs, links_lifetime := 7200 }
        "s3://bucket/key"
      = ImageUrlResult.signed (upload_to_gcs "s3://bucket/key" 3600)
    ∧ (upload_to_gcs "s3://bucket/key" 3600).expiry_seconds ≠ 7200
    ∧ resolve_image_url
        { storage_backend := StorageBackend.s3, links_lifetime := 7200 }
        "s3://bucket/key"
      = ImageUrlResult.signed (upload_to_s3 "s3://bucket/key" 3600)
    ∧ (upload_to_s3 "s3://bucket/key" 3600).expiry_seconds ≠ 7200 := by
  decide

/-- C1 (amended): for every dataset whose storage location is a raw
object-store URI (scheme neither `http` nor `https`), resolution produces a
signed, read-only URL whose expiry is the fixed one-hour duration hard-coded
in the handler — equal to the default of `links_lifetime`, but not read from
the configuration — for both the GCS-style and the S3-style signer
backends. -/
theorem c1_signing_expiry_fixed (cfg : LinksHandlerConfig) (uri : String)
    (h1 : uri_scheme uri ≠ "https") (h2 : uri_scheme uri ≠ "http") :
    ∃ s : SignedUrl, resolve_image_url cfg uri = .signed s
      ∧ s.expiry_seconds = links_lifetime_default
      ∧ s.backend = cfg.storage_backend
      ∧ s.method_get = true := by
  unfold resolve_image_url
  rw [if_neg (by simp [h1, h2])]
  cases hb : cfg.storage_backend
  · exact ⟨upload_to_gcs uri links_expires_in, rfl, rfl, rfl, rfl⟩
  · exact ⟨upload_to_s3 uri links_expires_in, rfl, rfl, rfl, rfl⟩

/-- C1 witness: the amended theorem applied to an `s3://` URI under the GCS
backend with a non-default configured lifetime. -/
theorem c1_signing_expiry_fixed_witness :
    uri_scheme "s3://bucket/key" ≠ "https"
    ∧ uri_scheme "s3://bucket/key" ≠ "http"
    ∧ ∃ s : SignedUrl,
        resolve_image_url
            { storage_backend := StorageBackend.gcs, links_lifetime := 7200 }
            "s3://bucket/key"
          = .signed s
        ∧ s.expiry_seconds = links_lifetime_default
        ∧ s.backend = StorageBackend.gcs
        ∧ s.method_get = true :=
  ⟨by decide, by decide,
   c1_signing_expiry_fixed
     { storage_backend := StorageBackend.gcs, links_lifetime := 7200 }
     "s3://bucket/key" (by decide) (by decide)⟩

/-- C6: link assembly suppresses the cutout sync URL exactly when the
dataset type is `raw`: a raw dataset with a present discovery result yields
an absent auxiliary field, and any other dataset type yields the discovered
URL unchanged. -/
theorem c6_raw_suppresses_cutout (id uri cs : String) (size : Nat)
    (ref : DatasetRefInfo)
    (hscheme : uri_scheme uri = "https" ∨ uri_scheme uri = "http") :
    (ref.dataset_type_name = "raw" →
      build_datalink id (.found (some ref) uri size) (some cs)
        = .ok { id := id, image_url := uri, image_size := size,
                cutout_sync_url := none })
    ∧ (ref.dataset_type_name ≠ "raw" →
      build_datalink id (.found (some ref) uri size) (some cs)
        = .ok { id := id, image_url := uri, image_size := size,
                cutout_sync_url := some cs }) := by
  have hcond : ¬(uri_scheme uri ≠ "https" ∧ uri_scheme uri ≠ "http") := by
    rcases hscheme with h | h <;> simp [h]
  constructor <;> intro hr <;> simp [build_datalink, hcond, hr]

/-- C6 witness: the theorem applied to a raw dataset and to a `calexp`
dataset, both with a presigned location and a present discovery result. -/
theorem c6_raw_suppresses_cutout_witness :
    (uri_scheme "https://x/img" = "https" ∨ uri_scheme "https://x/img" = "http")
    ∧ build_datalink "butler://r/u"
        (.found (some { dataset_type_name := "raw" }) "https://x/img" 5)
        (some "http://cutout")
      = .ok { id := "butler://r/u", image_url := "https://x/img",
              image_size := 5, cutout_sync_url := none }
    ∧ build_datalink "butler://r/u"
        (.found (some { dataset_type_name := "calexp" }) "https://x/img" 5)
        (some "http://cutout")
      = .ok { id := "butler://r/u", image_url := "https://x/img",
              image_size := 5, cutout_sync_url := some "http://cutout" } :=
  ⟨Or.inl (by decide),
   (c6_raw_suppresses_cutout "butler://r/u" "https://x/img" "http://cutout" 5
      { dataset_type_name := "raw" } (Or.inl (by decide))).1 rfl,
   (c6_raw_suppresses_cutout "butler://r/u" "https://x/img" "http://cutout" 5
      { dataset_type_name := "calexp" } (Or.inl (by decide))).2 (by decide)⟩

/-- C7: a storage location whose scheme is already `http` or `https` is
passed through byte-for-byte unchanged as the access URL, with no
re-signing, in both the links service and the handler's URL-resolution
branch. -/
theorem c7_presigned_passthrough (id uri : String) (size : Nat)
    (ref : DatasetRefInfo) (cs : Option String) (cfg : LinksHandlerConfig)
    (hscheme : uri_scheme uri = "https" ∨ uri_scheme uri = "http") :
    (∃ dl : DataLink,
      build_datalink id (.found (some ref) uri size) cs = .ok dl
        ∧ dl.image_url = uri)
    ∧ resolve_image_url cfg uri = .passthrough uri := by
  have hcond : ¬(uri_scheme uri ≠ "https" ∧ uri_scheme uri ≠ "http") := by
    rcases hscheme with h | h <;> simp [h]
  constructor
  · exact ⟨{ id := id, image_url := uri, image_size := size,
             cutout_sync_url :=
               if ref.dataset_type_name = "raw" then none else cs },
           by simp [build_datalink, hcond], rfl⟩
  · unfold resolve_image_url
    rw [if_pos hscheme]

/-- C7 witness: the theorem applied to a presigned `https` URL. -/
theorem c7_presigned_passthrough_witness :
    (uri_scheme "https://presigned.example.com/i?sig=ab" = "https"
      ∨ uri_scheme "https://presigned.example.com/i?sig=ab" = "http")
    ∧ (∃ dl : DataLink,
        build_datalink "butler://r/u"
            (.found (some { dataset_type_name := "calexp" })
              "https://presigned.example.com/i?sig=ab" 9)
            (some "http://cutout")
          = .ok dl
        ∧ dl.image_url = "https://presigned.example.com/i?sig=ab")
    ∧ resolve_image_url
        { storage_backend := StorageBackend.s3, links_lifetime := 3600 }
        "https://presigned.example.com/i?sig=ab"
      = .passthrough "https://presigned.example.com/i?sig=ab" :=
  ⟨Or.inl (by decide),
   (c7_presigned_passthrough "butler://r/u"
      "https://presigned.example.com/i?sig=ab" 9
      { dataset_type_name := "calexp" } (some "http://cutout")
      { storage_backend := StorageBackend.s3, links_lifetime := 3600 }
      (Or.inl (by decide))).1,
   (c7_presigned_passthrough "butler://r/u"
      "https://presigned.example.com/i?sig=ab" 9
      { dataset_type_name := "calexp" } (some "http://cutout")
      { storage_backend := StorageBackend.s3, links_lifetime := 3600 }
      (Or.inl (by decide))).2⟩

/-- C2 counterexample: for the default entry point, a first access whose
aggregate is empty stores the empty text, yet the next access — with no
intervening invalidation — issues a fetch again instead of serving the
stored entry, because the cache guard tests Python truthiness. -/
theorem c2_counterexample :
    (hips_list_call ex_cfg_one ex_client_empty none).2.1 = some ""
    ∧ (hips_list_call ex_cfg_one ex_client_empty none).2.2
        = ["http://e/p/properties"]
    ∧ (hips_list_call ex_cfg_one ex_client_empty (some "")).2.2
        = ["http://e/p/properties"]
    ∧ (hips_list_call ex_cfg_one ex_client_empty (some "")).2.2 ≠ [] := by
  decide

/-- C2 (amended): the per-family entry point populates on first access,
stores the resulting text under the key even when it is empty, and serves
every later access from the stored entry with zero fetches; the default
entry point does the same only while the stored text is non-empty — a stored
empty text fails its truthiness guard, so the default list is rebuilt (with
fetches) on every access until a non-empty result is stored. -/
theorem c2_cache_mechanics (cfg : HiPSConfig) (client : String → Option String)
    (d t : String) (st : List (String × String)) (dc : HiPSDatasetConfig) :
    (st.find? (fun kv => kv.1 = d) = some (d, t) →
      hips_datasets_lookup cfg d = some dc →
      dataset_hips_list_call cfg client d st = .ok (t, st, []))
    ∧ (st.find? (fun kv => kv.1 = d) = none →
      hips_datasets_lookup cfg d = some dc →
      dataset_hips_list_call cfg client d st
        = .ok (build_hips_list_from_paths client dc.url dc.paths,
               dict_insert st d
                 (build_hips_list_from_paths client dc.url dc.paths),
               build_requests dc.url dc.paths))
    ∧ (t ≠ "" → hips_list_call cfg client (some t) = (t, some t, []))
    ∧ hips_list_call cfg client none
        = ((build_default_hips_list cfg client).1,
           some (build_default_hips_list cfg client).1,
           (build_default_hips_list cfg client).2)
    ∧ hips_list_call cfg client (some "")
        = ((build_default_hips_list cfg client).1,
           some (build_default_hips_list cfg client).1,
           (build_default_hips_list cfg client).2) := by
  refine ⟨fun hf hl => ?_, fun hf hl => ?_, fun ht => ?_, rfl, ?_⟩
  · have hne := hips_datasets_lookup_ne_nil hl
    simp [dataset_hips_list_call, hne, hl, hf]
  · have hne := hips_datasets_lookup_ne_nil hl
    simp [dataset_hips_list_call, hne, hl, hf]
  · simp [hips_list_call, ht]
  · simp [hips_list_call]

/-- C2 witness: the amended theorem applied to a one-family configuration —
a stored empty text is served with zero fetches by the per-family entry
point, a miss stores the (empty) build result, and a stored non-empty
default text is served with zero fetches. -/
theorem c2_cache_mechanics_witness :
    ([("d", "")].find? (fun kv => kv.1 = "d") = some ("d", ""))
    ∧ hips_datasets_lookup ex_cfg_one "d"
        = some { url := "http://e", paths := ["p"] }
    ∧ dataset_hips_list_call ex_cfg_one ex_client_empty "d" [("d", "")]
        = .ok ("", [("d", "")], [])
    ∧ dataset_hips_list_call ex_cfg_one ex_client_empty "d" []
        = .ok (build_hips_list_from_paths ex_client_empty "http://e" ["p"],
               dict_insert []
                 "d" (build_hips_list_from_paths ex_client_empty "http://e"
                   ["p"]),
               build_requests "http://e" ["p"])
    ∧ hips_list_call ex_cfg_one ex_client_empty (some "X")
        = ("X", some "X", []) :=
  ⟨by decide, by decide,
   (c2_cache_mechanics ex_cfg_one ex_client_empty "d" "" [("d", "")]
      { url := "http://e", paths := ["p"] }).1 (by decide) (by decide),
   (c2_cache_mechanics ex_cfg_one ex_client_empty "d" "" []
      { url := "http://e", paths := ["p"] }).2.1 (by decide) (by decide),
   (c2_cache_mechanics ex_cfg_one ex_client_empty "d" "X" []
      { url := "http://e", paths := ["p"] }).2.2.1 (by decide)⟩

/-- C8: a per-family get for a name that is not a configured family returns
a not-found outcome without building or caching anything; with families
configured, the outcome's message enumerates exactly the configured family
names, and with none configured it is the no-datasets not-found outcome. -/
theorem c8_unknown_family (cfg : HiPSConfig) (client : String → Option String)
    (name : String) (st : List (String × String))
    (h : hips_datasets_lookup cfg name = none) :
    (cfg.hips_datasets = [] →
      dataset_hips_list_call cfg client name st
        = .error .no_datasets_configured)
    ∧ (cfg.hips_datasets ≠ [] →
      dataset_hips_list_call cfg client name st
        = .error (.dataset_not_configured name (hips_datasets_keys cfg)))
    ∧ cache_apply cfg client st (.get_dataset name) = st
    ∧ hips_error_detail
        (.dataset_not_configured name (hips_datasets_keys cfg))
      = "Dataset " ++ single_quote ++ name ++ single_quote
          ++ " not configured. Available datasets: "
          ++ py_list_repr (hips_datasets_keys cfg) := by
  refine ⟨fun hnil => ?_, fun hne => ?_, ?_, rfl⟩
  · simp [dataset_hips_list_call, hnil]
  · simp [dataset_hips_list_call, hne, h]
  · by_cases hnil : cfg.hips_datasets = [] <;>
      simp [cache_apply, dataset_hips_list_call, hnil, h]

/-- C8 witness: the theorem applied to a two-family configuration queried
with an unknown name, and to an empty configuration. -/
theorem c8_unknown_family_witness :
    hips_datasets_lookup ex_cfg_two "unknown" = none
    ∧ dataset_hips_list_call ex_cfg_two ex_client_fail "unknown" []
        = .error (.dataset_not_configured "unknown" ["dp02", "dp1"])
    ∧ dataset_hips_list_call
        { hips_datasets := [], hips_default_dataset := "" }
        ex_client_fail "unknown" []
        = .error .no_datasets_configured
    ∧ cache_apply ex_cfg_two ex_client_fail [] (.get_dataset "unknown") = [] :=
  ⟨by decide,
   (c8_unknown_family ex_cfg_two ex_client_fail "unknown" []
      (by decide)).2.1 (by decide),
   (c8_unknown_family { hips_datasets := [], hips_default_dataset := "" }
      ex_client_fail "unknown" [] (by decide)).1 rfl,
   (c8_unknown_family ex_cfg_two ex_client_fail "unknown" []
      (by decide)).2.2.1⟩

/-- Keys after a dict insertion: every key was already present or is the
inserted key. -/
theorem mem_cache_keys_dict_insert {k2 : String}
    (st : List (String × String)) (k v : String)
    (h : k2 ∈ cache_keys (dict_insert st k v)) :
    k2 ∈ cache_keys st ∨ k2 = k := by
  unfold dict_insert at h
  by_cases hc : st.any (fun kv => kv.1 = k)
  · rw [if_pos hc] at h
    unfold cache_keys at h ⊢
    rw [List.map_map] at h
    rcases List.mem_map.1 h with ⟨kv, hkv, heq⟩
    by_cases hk : kv.1 = k
    · right
      rw [← heq]
      simp [Function.comp, hk]
    · left
      refine List.mem_map.2 ⟨kv, hkv, ?_⟩
      rw [← heq]
      simp [Function.comp, hk]
  · rw [if_neg hc] at h
    unfold cache_keys at h ⊢
    rw [List.map_append] at h
    rcases List.mem_append.1 h with h2 | h2
    · exact Or.inl h2
    · right
      simpa using h2

/-- A successful per-family get only touches the key it was asked for, and
that key is a configured family. -/
theorem dataset_call_ok_state (cfg : HiPSConfig)
    (client : String → Option String) (d : String)
    (st : List (String × String))
    (r : String × List (String × String) × List String)
    (h : dataset_hips_list_call cfg client d st = .ok r) :
    hips_datasets_lookup cfg d ≠ none
    ∧ ∀ k2 ∈ cache_keys r.2.1, k2 ∈ cache_keys st ∨ k2 = d := by
  by_cases hnil : cfg.hips_datasets = []
  · simp [dataset_hips_list_call, hnil] at h
  · cases hl : hips_datasets_lookup cfg d with
    | none => simp [dataset_hips_list_call, hnil, hl] at h
    | some dc =>
      refine ⟨by simp [hl], ?_⟩
      cases hf : st.find? (fun kv => kv.1 = d) with
      | some kv =>
        simp [dataset_hips_list_call, hnil, hl, hf] at h
        intro k2 hk2
        rw [← h] at hk2
        exact Or.inl hk2
      | none =>
        simp [dataset_hips_list_call, hnil, hl, hf] at h
        intro k2 hk2
        rw [← h] at hk2
        exact mem_cache_keys_dict_insert st d _ hk2

/-- One cache operation preserves the all-keys-configured invariant. -/
theorem cache_apply_preserves (cfg : HiPSConfig)
    (client : String → Option String) (st : List (String × String))
    (op : CacheOp)
    (h : ∀ k ∈ cache_keys st, hips_datasets_lookup cfg k ≠ none) :
    ∀ k ∈ cache_keys (cache_apply cfg client st op),
      hips_datasets_lookup cfg k ≠ none := by
  cases op with
  | get_dataset d =>
    cases hcall : dataset_hips_list_call cfg client d st with
    | error e => simpa [cache_apply, hcall] using h
    | ok r =>
      intro k hk
      simp only [cache_apply, hcall] at hk
      obtain ⟨hlook, hsub⟩ := dataset_call_ok_state cfg client d st r hcall
      rcases hsub k hk with hk2 | hk2
      · exact h k hk2
      · rw [hk2]; exact hlook
  | clear_dataset_cache d =>
    intro k hk
    apply h
    unfold cache_apply cache_keys at hk
    rcases List.mem_map.1 hk with ⟨kv, hkv, heq⟩
    exact List.mem_map.2 ⟨kv, List.mem_of_mem_filter hkv, heq⟩
  | clear_cache =>
    intro k hk
    simp [cache_apply, cache_keys] at hk

/-- Folding any operation sequence preserves the invariant. -/
theorem cache_apply_foldl_preserves (cfg : HiPSConfig)
    (client : String → Option String) (ops : List CacheOp) :
    ∀ st : List (String × String),
      (∀ k ∈ cache_keys st, hips_datasets_lookup cfg k ≠ none) →
      ∀ k ∈ cache_keys (ops.foldl (cache_apply cfg client) st),
        hips_datasets_lookup cfg k ≠ none := by
  induction ops with
  | nil => intro st h; exact h
  | cons op rest ih =>
    intro st h
    exact ih (cache_apply cfg client st op)
      (cache_apply_preserves cfg client st op h)

/-- C10: after any sequence of get, invalidate-one and invalidate-all
operations from the empty per-family cache, every key present in the cache
is a configured family name — get refuses unconfigured names before
populating, and both invalidation operations only remove keys. -/
theorem c10_cache_keys_configured (cfg : HiPSConfig)
    (client : String → Option String) (ops : List CacheOp) (k : String)
    (hk : k ∈ cache_keys (cache_apply_ops cfg client ops)) :
    hips_datasets_lookup cfg k ≠ none :=
  cache_apply_foldl_preserves cfg client ops []
    (fun _ hmem => absurd hmem (by simp [cache_keys])) k hk

/-- C10 witness: after getting the configured family, getting an unknown
family and invalidating another name, the key left in the cache is the
configured family. -/
theorem c10_cache_keys_configured_witness :
    "d" ∈ cache_keys
        (cache_apply_ops ex_cfg_one ex_client_fail
          [CacheOp.get_dataset "d", CacheOp.get_dataset "unknown",
           CacheOp.clear_dataset_cache "x"])
    ∧ hips_datasets_lookup ex_cfg_one "d" ≠ none :=
  ⟨by decide,
   c10_cache_keys_configured ex_cfg_one ex_client_fail
     [CacheOp.get_dataset "d", CacheOp.get_dataset "unknown",
      CacheOp.clear_dataset_cache "x"] "d" (by decide)⟩

end Datalinker
